import Mathlib

/-!
Verification development for the `olm` CLI (Office for Linelist Management).

The repository's CLI module (`olm/__init__.py`) is embedded directly.  The
`olm.lint` engine, the `olm.outbreaks` registry and the `olm.util` message
helpers are collaborators of the CLI that are not part of the sources at
hand; where a property depends on them they are modelled from the
specification (each such definition's doc comment says so) or taken as
parameters.
-/

set_option autoImplicit false

namespace Olm

/-! ## Python string splitting (used by `args.ignore.split(",")`, line 93) -/

/-- Embedding of Python `str.split(sep)` (single-character separator) at the
character-list level: accumulate the current token, emit it at each
separator.  `pySplitAux sep cs acc` processes the remaining characters `cs`
with the reversed current token `acc`. -/
def pySplitAux (sep : Char) : List Char → List Char → List (List Char)
  | [], acc => [acc.reverse]
  | c :: cs, acc =>
    if c = sep then acc.reverse :: pySplitAux sep cs []
    else pySplitAux sep cs (c :: acc)

/-- Embedding of Python `s.split(sep)` for a one-character separator:
`"".split(",") = [""]`, `"a,b".split(",") = ["a","b"]`. -/
def pySplit (sep : Char) (s : String) : List String :=
  (pySplitAux sep s.data []).map (fun cs => String.mk cs)

/-- Joining with a separator character, inverse of `pySplitAux`. -/
def joinWith (sep : Char) : List (List Char) → List Char
  | [] => []
  | [l] => l
  | l :: ls => l ++ sep :: joinWith sep ls

/-- Line 93: `ignore_keys = args.ignore.split(",") if args.ignore is not None
else []`. -/
def ignore_keys_of (ignore : Option String) : List String :=
  match ignore with
  | some s => pySplit ',' s
  | none => []

/-! ## Spec-modelled lint engine

`olm.lint` is not among the sources at hand; the engine below is modelled
from the specification's data model (spec §3) and algorithm (spec §4.3,
§4.4). -/

/-- Modelled from the spec: the violation-kind taxonomy of §4.4. -/
inductive ViolationKind
  | MissingRequiredField
  | TypeMismatch
  | OutOfRange
  | InvalidEnumValue
  | UnknownField
  | MissingColumn
deriving DecidableEq

/-- Modelled from the spec: a Violation (§3) — `row_index` is `none` for
dataset-level issues, `raw_value` is the offending cell content when
applicable. -/
structure Violation where
  row_index : Option Nat
  field_name : String
  kind : ViolationKind
  message : String
  raw_value : Option String
deriving DecidableEq

/-- Modelled from the spec: a Field Specification's `type` together with its
type-specific constraint payload (§3, §9 tagged-variant dispatch).  `float`
values are modelled as exact rationals parsed from decimal literals. -/
inductive FieldTypeSpec
  | stringTy
  | integerTy (lo hi : Option Int)
  | floatTy (lo hi : Option Rat)
  | dateTy (formats : List String)
  | enumTy (allowed : List String)
  | booleanTy
deriving DecidableEq

/-- Modelled from the spec: one Field Specification of a Schema (§3). -/
structure FieldSpec where
  name : String
  required : Bool
  ftype : FieldTypeSpec
deriving DecidableEq

/-- Modelled from the spec: a Row is a mapping from column name to raw cell
value, kept ordered (§3). -/
abbrev Row := List (String × String)

/-- Parse a non-empty all-digit character list into a natural number. -/
def parseDigits (cs : List Char) : Option Nat :=
  if cs ≠ [] ∧ cs.all Char.isDigit then
    some (cs.foldl (fun a c => a * 10 + (c.toNat - 48)) 0)
  else
    none

/-- Modelled from the spec: integer parsing for the `integer` validator
(§4.3) — optional sign followed by digits. -/
def parseInt (s : String) : Option Int :=
  match s.data with
  | '-' :: rest => (parseDigits rest).map (fun n => -(n : Int))
  | '+' :: rest => (parseDigits rest).map (fun n => (n : Int))
  | cs => (parseDigits cs).map (fun n => (n : Int))

/-- Parse an unsigned decimal literal (digits, optionally a point and more
digits) into an exact rational. -/
def parseUnsignedRat (cs : List Char) : Option Rat :=
  let ip := cs.takeWhile (fun c => c ≠ '.')
  let rest := cs.dropWhile (fun c => c ≠ '.')
  match rest with
  | [] => (parseDigits ip).map (fun n => (n : Rat))
  | _ :: fp =>
    match parseDigits ip, parseDigits fp with
    | some i, some f => some ((i : Rat) + (f : Rat) / ((10 : Rat) ^ fp.length))
    | _, _ => none

/-- Modelled from the spec: numeric parsing for the `float` validator (§4.3),
with decimal literals read as exact rationals. -/
def parseFloat (s : String) : Option Rat :=
  match s.data with
  | '-' :: rest => (parseUnsignedRat rest).map (fun q => -q)
  | '+' :: rest => parseUnsignedRat rest
  | cs => parseUnsignedRat cs

/-- Inclusive range check against optional bounds (§4.3: value must lie
within [min, max] inclusive). -/
def inRangeInt (n : Int) (lo hi : Option Int) : Bool :=
  (match lo with | none => true | some a => decide (a ≤ n)) &&
  (match hi with | none => true | some b => decide (n ≤ b))

/-- Inclusive range check against optional rational bounds. -/
def inRangeRat (q : Rat) (lo hi : Option Rat) : Bool :=
  (match lo with | none => true | some a => decide (a ≤ q)) &&
  (match hi with | none => true | some b => decide (q ≤ b))

/-- Modelled from the spec: one date format character matching — a
placeholder letter matches any digit, any other character matches itself
(§4.3 date rule, format language unspecified by the spec). -/
def dateMatchesChars : List Char → List Char → Bool
  | [], [] => true
  | f :: fs, c :: cs =>
    (if f ∈ ['Y', 'M', 'D', 'y', 'm', 'd'] then c.isDigit else f = c) &&
      dateMatchesChars fs cs
  | _, _ => false

/-- A value matches a date format when they align character by character. -/
def dateMatches (fmt v : String) : Bool :=
  dateMatchesChars fmt.data v.data

/-- Modelled from the spec: the fixed recognized true/false token set of the
`boolean` validator (§4.3). -/
def boolTokens : List String :=
  ["true", "false", "True", "False", "yes", "no", "Yes", "No"]

/-- Modelled from the spec: the per-cell Field Validator (§4.3).  The
`required` check runs first and short-circuits type checking; an empty
optional value is valid; otherwise dispatch on the declared type. -/
def validateCell (fs : FieldSpec) (v : String) : Option (ViolationKind × String) :=
  if v = "" then
    if fs.required then
      some (ViolationKind.MissingRequiredField, "missing required field " ++ fs.name)
    else
      none
  else
    match fs.ftype with
    | FieldTypeSpec.stringTy => none
    | FieldTypeSpec.integerTy lo hi =>
      match parseInt v with
      | none => some (ViolationKind.TypeMismatch, "not an integer: " ++ v)
      | some n =>
        if inRangeInt n lo hi then none
        else some (ViolationKind.OutOfRange, "out of range: " ++ v)
    | FieldTypeSpec.floatTy lo hi =>
      match parseFloat v with
      | none => some (ViolationKind.TypeMismatch, "not a number: " ++ v)
      | some q =>
        if inRangeRat q lo hi then none
        else some (ViolationKind.OutOfRange, "out of range: " ++ v)
    | FieldTypeSpec.dateTy formats =>
      if formats.any (fun f => dateMatches f v) then none
      else some (ViolationKind.TypeMismatch, "not a valid date: " ++ v)
    | FieldTypeSpec.enumTy allowed =>
      if v ∈ allowed then none
      else some (ViolationKind.InvalidEnumValue, "not an allowed value: " ++ v)
    | FieldTypeSpec.booleanTy =>
      if v ∈ boolTokens then none
      else some (ViolationKind.TypeMismatch, "not a boolean: " ++ v)

/-- Modelled from the spec: the per-row pass of the Validation Engine (§4.4):
for each field in schema order, skip it entirely when its name is in the
ignore-list, otherwise look up the cell (missing cell = empty value, §4.3)
and record any violation with the row's 0-based index. -/
def rowViolations (ignore : List String) (schema : List FieldSpec)
    (i : Nat) (row : Row) : List Violation :=
  schema.filterMap (fun fs =>
    if fs.name ∈ ignore then none
    else
      (validateCell fs (((row : List (String × String)).lookup fs.name).getD "")).map
        (fun km =>
          { row_index := some i
            field_name := fs.name
            kind := km.1
            message := km.2
            raw_value := some (((row : List (String × String)).lookup fs.name).getD "") }))

/-- The dataset's header: the column names of the first row (spec §3: all
rows share the same column set). -/
def headerOf (rows : List Row) : List String :=
  match rows with
  | [] => []
  | r :: _ => (r : List (String × String)).map Prod.fst

/-- Modelled from the spec: `UnknownField` violations, computed once per
distinct unknown column against the header (§4.3, §4.4); ignored field names
produce no violation (§8). -/
def unknownFieldViolations (ignore : List String) (schema : List FieldSpec)
    (cols : List String) : List Violation :=
  cols.eraseDups.filterMap (fun c =>
    if c ∈ schema.map FieldSpec.name then none
    else if c ∈ ignore then none
    else
      some { row_index := none
             field_name := c
             kind := ViolationKind.UnknownField
             message := "unknown field " ++ c
             raw_value := none })

/-- Modelled from the spec: `MissingColumn` violations — schema fields absent
from the header, reported as dataset-level (`row_index = none`) (§4.3,
§4.4); ignored field names produce no violation (§8). -/
def missingColumnViolations (ignore : List String) (schema : List FieldSpec)
    (cols : List String) : List Violation :=
  schema.filterMap (fun fs =>
    if fs.name ∈ cols then none
    else if fs.name ∈ ignore then none
    else
      some { row_index := none
             field_name := fs.name
             kind := ViolationKind.MissingColumn
             message := "missing column " ++ fs.name
             raw_value := none })

/-- Modelled from the spec: the Validation Result (§3): `ok` true iff no
violations survived the ignore-list filter; `violations` ordered
row-then-column with dataset-level violations last. -/
structure ValidationResult where
  ok : Bool
  violations : List Violation
deriving DecidableEq

/-- Modelled from the spec: the header-level checks of §4.4, computed once
against the dataset's header; an empty dataset has no header and produces no
violations at all (§8 Scenario D: absence of rows is not itself an
error). -/
def headerViolations (ignore : List String) (schema : List FieldSpec)
    (rows : List Row) : List Violation :=
  match rows with
  | [] => []
  | _ :: _ =>
    unknownFieldViolations ignore schema (headerOf rows) ++
      missingColumnViolations ignore schema (headerOf rows)

/-- Modelled from the spec: the Validation Engine algorithm (§4.4): a single
pass over all rows in order and all schema fields in schema order, then the
header-level `UnknownField` and `MissingColumn` computations, then
`ok := violations is empty`. -/
def specLint (schema : List FieldSpec) (rows : List Row) (ignore : List String) :
    ValidationResult :=
  let vs :=
    (rows.enum.flatMap (fun p => rowViolations ignore schema p.1 p.2)) ++
      headerViolations ignore schema rows
  { ok := vs.isEmpty, violations := vs }

/-! ## Rendering of a ValidationResult

`print(lint_result)` (line 100) prints the result's string rendering, which
lives in the absent `olm.lint` module. -/

/-- Human-readable name of a violation kind. -/
def kindName : ViolationKind → String
  | ViolationKind.MissingRequiredField => "missing required field"
  | ViolationKind.TypeMismatch => "type mismatch"
  | ViolationKind.OutOfRange => "out of range"
  | ViolationKind.InvalidEnumValue => "invalid enum value"
  | ViolationKind.UnknownField => "unknown field"
  | ViolationKind.MissingColumn => "missing column"

/-- Location part of a rendered violation. -/
def renderRowIndex : Option Nat → String
  | none => "dataset"
  | some i => "row " ++ toString i

/-- Modelled from the spec: the Report Formatter renders one violation with
row index, field, kind and message (§4.5). -/
def renderViolation (v : Violation) : String :=
  renderRowIndex v.row_index ++ ", field " ++ v.field_name ++ ": " ++
    kindName v.kind ++ " - " ++ v.message

/-- Modelled from the spec: the string rendering of a Validation Result —
"N issues found" plus the itemized violations (§4.5, §7). -/
def renderResult (r : ValidationResult) : String :=
  toString r.violations.length ++ " issues found\n" ++
    String.intercalate "\n" (r.violations.map renderViolation)

/-! ## CLI embedding (`olm/__init__.py`, lines 30-113) -/

/-- One entry of the `OUTBREAKS` registry: a mapping with `description` and
`id` keys and an optional `url` key (lines 81, 84, 88).  The registry module
itself is a collaborator outside the sources at hand, so registries are
passed as association lists with distinct keys (Python dict). -/
structure Outbreak where
  description : String
  id : String
  url : Option String
deriving DecidableEq

/-- Python exceptions the embedded `main` can raise: attribute access on an
undefined namespace attribute, and dict access on a missing key. -/
inductive PyErr
  | attributeError
  | keyError
deriving DecidableEq

/-- Observable effects of one run of `main`: `msg_ok`/`msg_fail` from
`olm.util`, `print`, `Path.write_text`, `make_report`, `webbrowser.open`. -/
inductive CliEvent
  | msgOk (tag msg : String)
  | msgFail (tag msg : String)
  | printOut (s : String)
  | writeFile (path content : String)
  | madeReport (outbreak dataUrl : String) (bucket cloudfront : Option String)
  | openBrowser (url : String)
deriving DecidableEq

/-- The parsed argparse namespace.  `outbreak = none` means the attribute is
not defined on the namespace (the `list` subparser and the bare parser
declare no `outbreak` argument, lines 45, 51, 53, 56); the remaining
optional fields hold the argparse value (`none` when the flag was not
supplied) and are only ever read on command paths whose subparser declares
them. -/
structure CliArgs where
  command : Option String
  outbreak : Option String
  data : Option String
  schema : Option String
  ignore : Option String
  bucket : Option String
  cloudfront : Option String
  openFlag : Bool
deriving DecidableEq

/-- The command lines `main` can be invoked with, one constructor per
subparser plus the bare invocation (lines 42-66). -/
inductive Invocation
  | listCmd
  | getCmd (outbreak : String)
  | lintCmd (outbreak : String) (data schema ignore : Option String)
  | reportCmd (outbreak : String) (data bucket cloudfront : Option String)
      (openFlag : Bool)
  | noCommand
deriving DecidableEq

/-- Embedding of `parser.parse_args()` (line 68) under the subparser
configuration of lines 36-66: only the `get`, `lint` and `report` subparsers
define the `outbreak` attribute. -/
def parse_args : Invocation → CliArgs
  | Invocation.listCmd =>
    { command := some "list", outbreak := none, data := none, schema := none
      ignore := none, bucket := none, cloudfront := none, openFlag := false }
  | Invocation.getCmd o =>
    { command := some "get", outbreak := some o, data := none, schema := none
      ignore := none, bucket := none, cloudfront := none, openFlag := false }
  | Invocation.lintCmd o d s ig =>
    { command := some "lint", outbreak := some o, data := d, schema := s
      ignore := ig, bucket := none, cloudfront := none, openFlag := false }
  | Invocation.reportCmd o d b c op =>
    { command := some "report", outbreak := some o, data := d, schema := none
      ignore := none, bucket := b, cloudfront := c, openFlag := op }
  | Invocation.noCommand =>
    { command := none, outbreak := none, data := none, schema := none
      ignore := none, bucket := none, cloudfront := none, openFlag := false }

/-- An HTTP response as used by the `get` branch (lines 87-91):
`status_code` and `text`. -/
structure HttpResponse where
  status_code : Nat
  text : String

/-- The tuple of arguments the CLI passes to `lint` at its call site
(line 95): `lint(args.outbreak, args.data, args.schema, ignore_keys)`. -/
structure LintCallArgs where
  outbreak : String
  data : Option String
  schema : Option String
  ignore_keys : List String
deriving DecidableEq

/-- The argument expressions of the `lint(...)` call on line 95, in order. -/
def lintCallParams : List String :=
  ["args.outbreak", "args.data", "args.schema", "ignore_keys"]

/-- The number of arguments the CLI passes to `lint` on line 95. -/
def lintCallArity : Nat :=
  lintCallParams.length

/-- The CLI's external collaborators: `requests.get`, the `lint` function
(absent `olm.lint` module), filesystem existence checks for the report
branch, and the working directory. -/
structure CliEnv where
  http_get : String → HttpResponse
  lintFn : LintCallArgs → ValidationResult
  file_exists : String → Bool
  cwd : String

/-- Python truthiness of an optional string (`args.command and ...`,
`args.data or ...`): `None` and the empty string are falsy. -/
def pyTruthyOpt : Option String → Bool
  | none => false
  | some s => s ≠ ""

/-- ANSI bold wrapping, as in `f"\033[1m{args.outbreak}\033[0m"`
(line 75). -/
def pyBold (s : String) : String :=
  "\x1b[1m" ++ s ++ "\x1b[0m"

/-- The condition of line 69 up to the registry membership test:
`args.command and args.command != "list"`. -/
def commandGuardActive (c : Option String) : Bool :=
  pyTruthyOpt c && !(c == some "list")

/-- The abort message of lines 70-74: unknown outbreak, listing the known
registry keys in bold. -/
def unknownOutbreakMsg (outbreaks : List (String × Outbreak)) : String :=
  "outbreak not known, choose from: \x1b[1m" ++
    String.intercalate ", " (outbreaks.map Prod.fst) ++ "\x1b[0m"

/-- One line of the `list` subcommand's output (lines 79-82). -/
def listLine (name : String) (ob : Outbreak) : String :=
  "\x1b[1m" ++ name ++ " \x1b[0m" ++ ob.description ++ " [" ++ ob.id ++ "]"

/-- The usage text printed when no subcommand is given (lines 13-27,
113). -/
def USAGE : String :=
  "olm: Office for Linelist Management\n\n" ++
  "olm is a tool to operate on linelists provided from Global.health (G.h).\n" ++
  "Linelists are epidemiological datasets with information about a disease\n" ++
  "outbreak organised into one row per case. Currently it supports\n" ++
  "generating briefing reports, fetching linelists and checking linelists\n" ++
  "against a provided schema.\n\n" ++
  "olm is organised into subcommands:\n\n" ++
  "list        lists G.h outbreaks that olm supports\n" ++
  "get         saves linelist data to disk\n" ++
  "report      generates briefing report for an outbreak\n" ++
  "lint        lints (checks) an outbreak linelist for errors\n"

/-- The `match args.command` statement of lines 77-113, reached only after
the guard of line 69 did not abort and line 75 resolved `args.outbreak` to
`ob`.  A run yields the emitted events and the process exit status: 0 when
`main` returns normally, 1 from `abort` (line 32), 2 from the failed-lint
branch (line 101). -/
def mainMatch (outbreaks : List (String × Outbreak)) (env : CliEnv)
    (args : CliArgs) (ob : String) : Except PyErr (List CliEvent × Nat) :=
  match args.command with
  | some "list" =>
    Except.ok (outbreaks.map (fun p => CliEvent.printOut (listLine p.1 p.2)), 0)
  | some "get" =>
    match outbreaks.lookup ob with
    | none => Except.error PyErr.keyError
    | some info =>
      match info.url with
      | none =>
        Except.ok ([CliEvent.msgFail "cli" ("no data URL found for " ++ pyBold ob)], 1)
      | some u =>
        let res := env.http_get u
        if res.status_code == 200 then
          Except.ok ([CliEvent.writeFile (ob ++ ".csv") res.text,
                      CliEvent.msgOk "get" ("wrote " ++ (ob ++ ".csv"))], 0)
        else
          Except.ok ([], 0)
  | some "lint" =>
    let call : LintCallArgs :=
      { outbreak := ob, data := args.data, schema := args.schema
        ignore_keys := ignore_keys_of args.ignore }
    let lint_result := env.lintFn call
    if lint_result.ok then
      Except.ok ([CliEvent.msgOk "lint" ("succeeded for " ++ pyBold ob)], 0)
    else
      Except.ok ([CliEvent.msgFail "lint" ("failed for " ++ pyBold ob),
                  CliEvent.printOut (renderResult lint_result)], 2)
  | some "report" =>
    match outbreaks.lookup ob with
    | none => Except.error PyErr.keyError
    | some info =>
      let dataUrlE : Except PyErr String :=
        if pyTruthyOpt args.data then Except.ok (args.data.getD "")
        else
          match info.url with
          | some u => Except.ok u
          | none => Except.error PyErr.keyError
      match dataUrlE with
      | Except.error e => Except.error e
      | Except.ok du =>
        let base := [CliEvent.madeReport ob du args.bucket args.cloudfront]
        if args.openFlag && env.file_exists (ob ++ ".html") then
          Except.ok (base ++
            [CliEvent.openBrowser ("file://" ++ env.cwd ++ "/" ++ (ob ++ ".html"))], 0)
        else
          Except.ok (base, 0)
  | none => Except.ok ([CliEvent.printOut USAGE], 0)
  | some _ => Except.ok ([], 0)

/-- Lines 75-113: the f-string on line 75 accesses `args.outbreak`
unconditionally; when the attribute is undefined this raises
`AttributeError` before the `match`. -/
def mainBody (outbreaks : List (String × Outbreak)) (env : CliEnv)
    (args : CliArgs) : Except PyErr (List CliEvent × Nat) :=
  match args.outbreak with
  | none => Except.error PyErr.attributeError
  | some ob => mainMatch outbreaks env args ob

/-- Embedding of `main` from `parse_args()` on (lines 68-113): the line 69
guard aborts with exit status 1 on an unknown outbreak for any truthy
command other than `list` (also reading `args.outbreak`, which raises
`AttributeError` if undefined), then control reaches line 75 and the
command dispatch. -/
def runMain (outbreaks : List (String × Outbreak)) (env : CliEnv)
    (args : CliArgs) : Except PyErr (List CliEvent × Nat) :=
  if commandGuardActive args.command then
    match args.outbreak with
    | none => Except.error PyErr.attributeError
    | some ob =>
      if ob ∈ outbreaks.map Prod.fst then
        mainBody outbreaks env args
      else
        Except.ok ([CliEvent.msgFail "cli" (unknownOutbreakMsg outbreaks)], 1)
  else
    mainBody outbreaks env args

/-! ## Sample inputs used by witnesses -/

/-- A concrete environment for witness instantiations. -/
def sampleEnv : CliEnv :=
  { http_get := fun _ => { status_code := 200, text := "id,age\n1,30\n" }
    lintFn := fun _ => { ok := true, violations := [] }
    file_exists := fun _ => false
    cwd := "/tmp" }

/-- A concrete environment whose HTTP responses are failures. -/
def sampleEnv404 : CliEnv :=
  { sampleEnv with http_get := fun _ => { status_code := 404, text := "" } }

/-- A concrete one-entry outbreak registry. -/
def sampleRegistry : List (String × Outbreak) :=
  [("mpox", { description := "Mpox 2024", id := "MPX", url := some "http://example.org/d.csv" })]

/-- A concrete violation for witness instantiations. -/
def sampleViolation : Violation :=
  { row_index := some 0, field_name := "age", kind := ViolationKind.OutOfRange
    message := "out of range: 150", raw_value := some "150" }

/-- A concrete environment whose lint function reports one violation. -/
def sampleEnvFail : CliEnv :=
  { sampleEnv with lintFn := fun _ => { ok := false, violations := [sampleViolation] } }

/-! ## Helper lemmas -/

theorem lookup_some_mem {α β : Type} [BEq α] [LawfulBEq α] {l : List (α × β)}
    {a : α} {b : β} (h : l.lookup a = some b) : a ∈ l.map Prod.fst := by
  induction l with
  | nil => simp [List.lookup] at h
  | cons p tl ih =>
    obtain ⟨k, v⟩ := p
    rw [List.lookup] at h
    by_cases hk : a == k
    · simp [eq_of_beq hk]
    · simp only [hk] at h
      exact List.mem_cons_of_mem _ (ih h)

theorem pySplitAux_ne_nil (sep : Char) (cs : List Char) :
    ∀ acc, pySplitAux sep cs acc ≠ [] := by
  induction cs with
  | nil => intro acc; simp [pySplitAux]
  | cons c cs ih =>
    intro acc
    simp only [pySplitAux]
    split
    · simp
    · exact ih _

theorem joinWith_pySplitAux (sep : Char) (cs : List Char) :
    ∀ acc, joinWith sep (pySplitAux sep cs acc) = acc.reverse ++ cs := by
  induction cs with
  | nil => intro acc; simp [pySplitAux, joinWith]
  | cons c cs ih =>
    intro acc
    simp only [pySplitAux]
    split
    · rename_i hc
      rcases hne : pySplitAux sep cs [] with _ | ⟨l, ls⟩
      · exact absurd hne (pySplitAux_ne_nil sep cs [])
      · have hj : joinWith sep (acc.reverse :: l :: ls) =
            acc.reverse ++ sep :: joinWith sep (l :: ls) := rfl
        rw [hj]
        have := ih []
        rw [hne] at this
        simp only [List.reverse_nil, List.nil_append] at this
        rw [this, hc]
    · rename_i hc
      rw [ih (c :: acc)]
      simp

theorem pySplitAux_no_sep (sep : Char) (cs : List Char) :
    ∀ acc, sep ∉ acc → ∀ l ∈ pySplitAux sep cs acc, sep ∉ l := by
  induction cs with
  | nil =>
    intro acc hacc l hl
    simp [pySplitAux] at hl
    subst hl
    simpa using hacc
  | cons c cs ih =>
    intro acc hacc l hl
    simp only [pySplitAux] at hl
    split at hl
    · rcases List.mem_cons.mp hl with h | h
      · subst h; simpa using hacc
      · exact ih [] (by simp) l h
    · rename_i hc
      refine ih (c :: acc) ?_ l hl
      intro hmem
      rcases List.mem_cons.mp hmem with h | h
      · exact hc h.symm
      · exact hacc h

theorem pySplit_no_sep (sep : Char) (s : String) :
    ∀ t ∈ pySplit sep s, sep ∉ t.data := by
  intro t ht
  simp only [pySplit, List.mem_map] at ht
  obtain ⟨cs, hcs, rfl⟩ := ht
  exact pySplitAux_no_sep sep s.data [] (by simp) cs hcs

theorem joinWith_pySplit (sep : Char) (s : String) :
    joinWith sep ((pySplit sep s).map String.data) = s.data := by
  have hmap : (pySplit sep s).map String.data = pySplitAux sep s.data [] := by
    simp only [pySplit, List.map_map]
    exact List.map_id _
  rw [hmap]
  simpa using joinWith_pySplitAux sep s.data []

theorem mem_rowViolations_not_ignored {ignore : List String} {schema : List FieldSpec}
    {i : Nat} {row : Row} {v : Violation} (h : v ∈ rowViolations ignore schema i row) :
    v.field_name ∉ ignore := by
  rcases List.mem_filterMap.mp h with ⟨fs, _, hfs⟩
  by_cases hig : fs.name ∈ ignore
  · simp [hig] at hfs
  · rw [if_neg hig] at hfs
    rcases Option.map_eq_some'.mp hfs with ⟨km, _, hv⟩
    rw [← hv]
    exact hig

theorem mem_unknownFieldViolations_not_ignored {ignore : List String}
    {schema : List FieldSpec} {cols : List String} {v : Violation}
    (h : v ∈ unknownFieldViolations ignore schema cols) : v.field_name ∉ ignore := by
  rcases List.mem_filterMap.mp h with ⟨c, _, hc⟩
  by_cases hn : c ∈ schema.map FieldSpec.name
  · simp [hn] at hc
  · rw [if_neg hn] at hc
    by_cases hig : c ∈ ignore
    · simp [hig] at hc
    · rw [if_neg hig] at hc
      cases hc
      exact hig

theorem mem_missingColumnViolations_not_ignored {ignore : List String}
    {schema : List FieldSpec} {cols : List String} {v : Violation}
    (h : v ∈ missingColumnViolations ignore schema cols) : v.field_name ∉ ignore := by
  rcases List.mem_filterMap.mp h with ⟨fs, _, hfs⟩
  by_cases hn : fs.name ∈ cols
  · simp [hn] at hfs
  · rw [if_neg hn] at hfs
    by_cases hig : fs.name ∈ ignore
    · simp [hig] at hfs
    · rw [if_neg hig] at hfs
      cases hfs
      exact hig

theorem mem_headerViolations_not_ignored {ignore : List String}
    {schema : List FieldSpec} {rows : List Row} {v : Violation}
    (h : v ∈ headerViolations ignore schema rows) : v.field_name ∉ ignore := by
  cases rows with
  | nil => simp [headerViolations] at h
  | cons r tl =>
    simp only [headerViolations, List.mem_append] at h
    rcases h with h | h
    · exact mem_unknownFieldViolations_not_ignored h
    · exact mem_missingColumnViolations_not_ignored h

theorem mem_specLint_violations_not_ignored {schema : List FieldSpec} {rows : List Row}
    {ignore : List String} {v : Violation}
    (h : v ∈ (specLint schema rows ignore).violations) : v.field_name ∉ ignore := by
  simp only [specLint, List.mem_append] at h
  rcases h with h | h
  · rcases List.mem_flatMap.mp h with ⟨p, _, hp⟩
    exact mem_rowViolations_not_ignored hp
  · exact mem_headerViolations_not_ignored h

/-! ## Claim theorems -/

/-- C1: for every dataset, schema and ignore-list, the ValidationResult
returned by lint has `ok` true if and only if its violations sequence,
after ignore-list filtering, is empty. -/
theorem lint_ok_iff_no_violations (schema : List FieldSpec) (rows : List Row)
    (ignore : List String) :
    (specLint schema rows ignore).ok = true ↔
      (specLint schema rows ignore).violations = [] := by
  simp [specLint, List.isEmpty_iff]

/-- C3: for every dataset, schema, row and cell content, if a field name is
in the caller-supplied ignore-list then no violation carrying that field
name appears in the ValidationResult. -/
theorem ignored_field_has_no_violations (schema : List FieldSpec) (rows : List Row)
    (ignore : List String) (f : String) (hf : f ∈ ignore) :
    ∀ v ∈ (specLint schema rows ignore).violations, v.field_name ≠ f := by
  intro v hv he
  exact mem_specLint_violations_not_ignored hv (he ▸ hf)

/-- Witness for C3: with schema fields `a` (ignored) and `b`, a row leaving
both empty, the single recorded violation is for `b`, not the ignored
`a`. -/
theorem ignored_field_has_no_violations_witness :
    ("a" ∈ ["a"]) ∧
    ({ row_index := some 0, field_name := "b", kind := ViolationKind.MissingRequiredField
       message := "missing required field b", raw_value := some "" } : Violation).field_name ≠ "a" :=
  ⟨by decide,
    ignored_field_has_no_violations
      [{ name := "a", required := true, ftype := FieldTypeSpec.stringTy },
       { name := "b", required := true, ftype := FieldTypeSpec.stringTy }]
      [[("a", ""), ("b", "")]] ["a"] "a" (by decide) _ (by decide)⟩

/-- C7: two runs of lint on the same dataset, schema and ignore-list produce
identical ValidationResults: the same ok value and the same violations in
the same order. -/
theorem lint_rerun_identical (schema : List FieldSpec) (rows : List Row)
    (ignore : List String) (r₁ r₂ : ValidationResult)
    (h₁ : r₁ = specLint schema rows ignore) (h₂ : r₂ = specLint schema rows ignore) :
    r₁.ok = r₂.ok ∧ r₁.violations = r₂.violations := by
  subst h₁
  subst h₂
  exact ⟨rfl, rfl⟩

/-- Witness for C7: two runs on a concrete one-field schema and one-row
dataset agree. -/
theorem lint_rerun_identical_witness :
    (specLint [{ name := "a", required := true, ftype := FieldTypeSpec.stringTy }]
        [[("a", "")]] []).ok =
      (specLint [{ name := "a", required := true, ftype := FieldTypeSpec.stringTy }]
        [[("a", "")]] []).ok ∧
    (specLint [{ name := "a", required := true, ftype := FieldTypeSpec.stringTy }]
        [[("a", "")]] []).violations =
      (specLint [{ name := "a", required := true, ftype := FieldTypeSpec.stringTy }]
        [[("a", "")]] []).violations :=
  lint_rerun_identical _ _ _ _ _ rfl rfl

/-- C6: the ignore-list computed on line 93 is exactly the comma-separated
tokens of the `--ignore` argument, in order — no token contains a comma and
re-joining the tokens with commas restores the argument — and is empty when
`--ignore` is not supplied. -/
theorem ignore_list_is_comma_tokens (s : String) :
    (∀ t ∈ ignore_keys_of (some s), ',' ∉ t.data) ∧
    joinWith ',' ((ignore_keys_of (some s)).map String.data) = s.data ∧
    ignore_keys_of none = [] := by
  refine ⟨?_, ?_, rfl⟩
  · exact pySplit_no_sep ',' s
  · exact joinWith_pySplit ',' s

/-- Witness for C6: on `--ignore ab,cd` the first token `ab` is comma-free,
and a missing `--ignore` yields the empty list. -/
theorem ignore_list_is_comma_tokens_witness :
    (',' ∉ ("ab" : String).data) ∧ ignore_keys_of none = [] :=
  ⟨(ignore_list_is_comma_tokens "ab,cd").1 "ab" (by decide),
    (ignore_list_is_comma_tokens "x").2.2⟩

/-- C8: invoking the `list` subcommand, or no subcommand at all, reaches the
unconditional `args.outbreak` access of line 75 with the attribute undefined,
so `main` raises `AttributeError` before printing the outbreak listing or
the usage text. -/
theorem list_and_bare_invocations_raise (outbreaks : List (String × Outbreak))
    (env : CliEnv) :
    runMain outbreaks env (parse_args Invocation.listCmd) =
      Except.error PyErr.attributeError ∧
    runMain outbreaks env (parse_args Invocation.noCommand) =
      Except.error PyErr.attributeError :=
  ⟨rfl, rfl⟩

/-- C10: for `get`, `lint` and `report`, an outbreak name that is not a key
of the registry makes `main` print the unknown-outbreak failure message and
exit with status 1, with no other effect. -/
theorem unknown_outbreak_aborts (outbreaks : List (String × Outbreak)) (env : CliEnv)
    (o : String) (d s ig b c : Option String) (op : Bool)
    (h : o ∉ outbreaks.map Prod.fst) :
    runMain outbreaks env (parse_args (Invocation.getCmd o)) =
      Except.ok ([CliEvent.msgFail "cli" (unknownOutbreakMsg outbreaks)], 1) ∧
    runMain outbreaks env (parse_args (Invocation.lintCmd o d s ig)) =
      Except.ok ([CliEvent.msgFail "cli" (unknownOutbreakMsg outbreaks)], 1) ∧
    runMain outbreaks env (parse_args (Invocation.reportCmd o d b c op)) =
      Except.ok ([CliEvent.msgFail "cli" (unknownOutbreakMsg outbreaks)], 1) := by
  refine ⟨?_, ?_, ?_⟩ <;>
    simp [runMain, parse_args, commandGuardActive, pyTruthyOpt, h]

/-- Witness for C10: the concrete registry knows only `mpox`, so `zika` is
rejected for each of the three subcommands. -/
theorem unknown_outbreak_aborts_witness :
    runMain sampleRegistry sampleEnv (parse_args (Invocation.getCmd "zika")) =
      Except.ok ([CliEvent.msgFail "cli" (unknownOutbreakMsg sampleRegistry)], 1) ∧
    runMain sampleRegistry sampleEnv
        (parse_args (Invocation.lintCmd "zika" none none none)) =
      Except.ok ([CliEvent.msgFail "cli" (unknownOutbreakMsg sampleRegistry)], 1) ∧
    runMain sampleRegistry sampleEnv
        (parse_args (Invocation.reportCmd "zika" none none none false)) =
      Except.ok ([CliEvent.msgFail "cli" (unknownOutbreakMsg sampleRegistry)], 1) :=
  unknown_outbreak_aborts sampleRegistry sampleEnv "zika" none none none none none false
    (by decide)

/-- C9: for a `get` invocation on a known outbreak with a data URL, the CSV
file is written (with a confirmation message) exactly when the HTTP status
is 200; any other status produces no output, writes nothing, and exits with
status 0. -/
theorem get_writes_iff_status200 (outbreaks : List (String × Outbreak)) (env : CliEnv)
    (o : String) (info : Outbreak) (u : String)
    (hl : outbreaks.lookup o = some info) (hu : info.url = some u) :
    runMain outbreaks env (parse_args (Invocation.getCmd o)) =
      Except.ok
        ((if (env.http_get u).status_code == 200 then
            [CliEvent.writeFile (o ++ ".csv") (env.http_get u).text,
             CliEvent.msgOk "get" ("wrote " ++ (o ++ ".csv"))]
          else []), 0) := by
  have hmem := lookup_some_mem hl
  simp only [runMain, parse_args, commandGuardActive, pyTruthyOpt]
  rw [if_pos (by decide)]
  rw [if_pos hmem]
  simp only [mainBody, mainMatch, hl, hu]
  split <;> rfl

/-- Witness for C9: on the concrete registry, a 200 response writes
`mpox.csv` and a 404 response produces no events. -/
theorem get_writes_iff_status200_witness :
    runMain sampleRegistry sampleEnv (parse_args (Invocation.getCmd "mpox")) =
      Except.ok
        ([CliEvent.writeFile "mpox.csv" "id,age\n1,30\n",
          CliEvent.msgOk "get" "wrote mpox.csv"], 0) ∧
    runMain sampleRegistry sampleEnv404 (parse_args (Invocation.getCmd "mpox")) =
      Except.ok ([], 0) := by
  constructor
  · rw [get_writes_iff_status200 sampleRegistry sampleEnv "mpox"
      { description := "Mpox 2024", id := "MPX", url := some "http://example.org/d.csv" }
      "http://example.org/d.csv" rfl rfl]
    rfl
  · rw [get_writes_iff_status200 sampleRegistry sampleEnv404 "mpox"
      { description := "Mpox 2024", id := "MPX", url := some "http://example.org/d.csv" }
      "http://example.org/d.csv" rfl rfl]
    rfl

/-- C2: for a lint invocation that completes a validation run (known
outbreak), the process exit status is 0 when the result's `ok` is true and
the non-zero status 2 when `ok` is false. -/
theorem lint_exit_status_matches_ok (outbreaks : List (String × Outbreak)) (env : CliEnv)
    (o : String) (d s ig : Option String) (hmem : o ∈ outbreaks.map Prod.fst) :
    ((env.lintFn
        { outbreak := o, data := d, schema := s, ignore_keys := ignore_keys_of ig }).ok =
          true →
      runMain outbreaks env (parse_args (Invocation.lintCmd o d s ig)) =
        Except.ok ([CliEvent.msgOk "lint" ("succeeded for " ++ pyBold o)], 0)) ∧
    ((env.lintFn
        { outbreak := o, data := d, schema := s, ignore_keys := ignore_keys_of ig }).ok =
          false →
      runMain outbreaks env (parse_args (Invocation.lintCmd o d s ig)) =
        Except.ok ([CliEvent.msgFail "lint" ("failed for " ++ pyBold o),
          CliEvent.printOut (renderResult (env.lintFn
            { outbreak := o, data := d, schema := s
              ignore_keys := ignore_keys_of ig }))], 2) ∧
      (2 : Nat) ≠ 0) := by
  constructor
  · intro hok
    simp only [runMain, parse_args, commandGuardActive, pyTruthyOpt]
    rw [if_pos (by decide)]
    rw [if_pos hmem]
    simp [mainBody, mainMatch, hok]
  · intro hok
    refine ⟨?_, by decide⟩
    simp only [runMain, parse_args, commandGuardActive, pyTruthyOpt]
    rw [if_pos (by decide)]
    rw [if_pos hmem]
    simp [mainBody, mainMatch, hok]

/-- Witness for C2: on the concrete registry, the all-pass lint function
exits with 0 for `mpox`. -/
theorem lint_exit_status_matches_ok_witness :
    runMain sampleRegistry sampleEnv (parse_args (Invocation.lintCmd "mpox" none none none)) =
      Except.ok ([CliEvent.msgOk "lint" ("succeeded for " ++ pyBold "mpox")], 0) :=
  (lint_exit_status_matches_ok sampleRegistry sampleEnv "mpox" none none none
    (by decide)).1 rfl

/-- C5: for a completed lint run through the CLI (known outbreak, result
whose `ok` flag agrees with emptiness of its violations): violations present
prints the failure message and the itemized rendering and exits 2; zero
violations prints only the success message. -/
theorem lint_cli_messages_match_violations (outbreaks : List (String × Outbreak))
    (env : CliEnv) (o : String) (d s ig : Option String)
    (hmem : o ∈ outbreaks.map Prod.fst)
    (hok : (env.lintFn
        { outbreak := o, data := d, schema := s, ignore_keys := ignore_keys_of ig }).ok =
      (env.lintFn
        { outbreak := o, data := d, schema := s
          ignore_keys := ignore_keys_of ig }).violations.isEmpty) :
    ((env.lintFn
        { outbreak := o, data := d, schema := s
          ignore_keys := ignore_keys_of ig }).violations ≠ [] →
      runMain outbreaks env (parse_args (Invocation.lintCmd o d s ig)) =
        Except.ok ([CliEvent.msgFail "lint" ("failed for " ++ pyBold o),
          CliEvent.printOut (renderResult (env.lintFn
            { outbreak := o, data := d, schema := s
              ignore_keys := ignore_keys_of ig }))], 2)) ∧
    ((env.lintFn
        { outbreak := o, data := d, schema := s
          ignore_keys := ignore_keys_of ig }).violations = [] →
      runMain outbreaks env (parse_args (Invocation.lintCmd o d s ig)) =
        Except.ok ([CliEvent.msgOk "lint" ("succeeded for " ++ pyBold o)], 0)) := by
  constructor
  · intro hv
    have hfalse : (env.lintFn
        { outbreak := o, data := d, schema := s
          ignore_keys := ignore_keys_of ig }).ok = false := by
      rw [hok]
      simpa using hv
    simp only [runMain, parse_args, commandGuardActive, pyTruthyOpt]
    rw [if_pos (by decide)]
    rw [if_pos hmem]
    simp [mainBody, mainMatch, hfalse]
  · intro hv
    have htrue : (env.lintFn
        { outbreak := o, data := d, schema := s
          ignore_keys := ignore_keys_of ig }).ok = true := by
      rw [hok, hv]
      rfl
    simp only [runMain, parse_args, commandGuardActive, pyTruthyOpt]
    rw [if_pos (by decide)]
    rw [if_pos hmem]
    simp [mainBody, mainMatch, htrue]

/-- Witness for C5: on the concrete registry, a one-violation result prints
the failure message plus the rendering and a clean result prints only the
success message. -/
theorem lint_cli_messages_match_violations_witness :
    runMain sampleRegistry sampleEnvFail (parse_args (Invocation.lintCmd "mpox" none none none)) =
      Except.ok ([CliEvent.msgFail "lint" ("failed for " ++ pyBold "mpox"),
        CliEvent.printOut
          (renderResult { ok := false, violations := [sampleViolation] })], 2) ∧
    runMain sampleRegistry sampleEnv (parse_args (Invocation.lintCmd "mpox" none none none)) =
      Except.ok ([CliEvent.msgOk "lint" ("succeeded for " ++ pyBold "mpox")], 0) :=
  ⟨(lint_cli_messages_match_violations sampleRegistry sampleEnvFail "mpox" none none none
      (by decide) rfl).1 (List.cons_ne_nil _ _),
    (lint_cli_messages_match_violations sampleRegistry sampleEnv "mpox" none none none
      (by decide) rfl).2 rfl⟩

/-- C4 counterexample: the CLI's sole call to lint (line 95) passes four
arguments — `args.outbreak`, `args.data`, `args.schema`, `ignore_keys` —
not three. -/
theorem lint_call_not_three_inputs : ¬ (lintCallArity = 3) := by
  decide

/-- C4 amended: the CLI's sole call to lint passes exactly four inputs: the
outbreak name, the dataset source, the schema source and the ignore
field-name list. -/
theorem lint_call_four_inputs : lintCallArity = 4 := by
  decide

end Olm
